import Mathlib

/-!
# Verification of the sync-engine orchestration layer

Shallow embedding of the Electron main-process supervisor
(`src/electron/src/p2p-main.ts`), the OrbitDB IPC bridge
(`src/electron/src/ipc-bridge.ts`), the preload update fan-out
(`src/electron/src/preload.ts`), and the renderer identity layer
(`src/src/lib/data-model.js`, renderer wrapper in `src/lib/p2p.js`).

External collaborators (libp2p, Helia, OrbitDB, WebCrypto, LevelDB) are
modelled as environments supplying the outcome of each external call:
a successful value or a thrown JavaScript error.  Module-level singleton
variables become an explicit state record threaded through the
operations.
-/

/-- A thrown JavaScript error, as inspected by the source's catch blocks:
`error.code`, `error.notFound` and `error.message`. -/
structure JsError where
  code : String
  notFound : Bool
  message : String
deriving DecidableEq, Repr

/-- A libp2p node as observed by the supervisor: its peer id and the
multiaddrs it listens on (`libp2p.peerId.toString()`, `libp2p.getMultiaddrs()`). -/
structure Libp2pNode where
  peerId : String
  multiaddrs : List String
deriving DecidableEq, Repr

/-- A Helia (IPFS) instance; opaque apart from its identity. -/
structure HeliaNode where
  heliaId : Nat
deriving DecidableEq, Repr

/-- An OrbitDB engine instance; opaque apart from its identity. -/
structure OrbitDBNode where
  orbitId : Nat
deriving DecidableEq, Repr

/-- The module-level singleton state of `p2p-main.ts`:
`let libp2p = null; let helia = null; let orbitdb = null`. -/
structure MainState where
  libp2p : Option Libp2pNode
  helia : Option HeliaNode
  orbitdb : Option OrbitDBNode
deriving DecidableEq, Repr

/-- The `P2PInitResult` record returned by `initializeP2P`. -/
structure P2PInitResult where
  success : Bool
  peerId : Option String
  multiaddrs : Option (List String)
  storageDir : Option String
  error : Option String
deriving DecidableEq, Repr

/-- Outcomes of the external calls made by one run of `initializeP2P`:
what `createLibp2p` and `createHelia` return (or throw), and
`app.getPath('userData')`. -/
structure InitEnv where
  createLibp2p : Except JsError Libp2pNode
  createHelia : Except JsError HeliaNode
  userDataPath : String
deriving Repr

/-- The catch block of `initializeP2P`: a `LEVEL_NOT_FOUND` / `notFound`
error is reclassified as first-run success (reading whatever `libp2p`
currently holds); any other error yields a failure result. -/
def initCatch (e : JsError) (s : MainState) (storageDir : String) :
    MainState × P2PInitResult :=
  if e.code = "LEVEL_NOT_FOUND" ∨ e.notFound then
    (s, { success := true
          peerId := some (match s.libp2p with
            | some n => n.peerId
            | none => "")
          multiaddrs := some (match s.libp2p with
            | some n => n.multiaddrs
            | none => [])
          storageDir := some storageDir
          error := none })
  else
    (s, { success := false, peerId := none, multiaddrs := none
          storageDir := none, error := some e.message })

/-- `initializeP2P` from `p2p-main.ts`: create the libp2p node (assigning
the module variable), then Helia over the Level stores (assigning the
module variable), and return peer id, multiaddrs and storage directory.
There is no already-initialized guard: the body runs unconditionally. -/
def initializeP2P (env : InitEnv) (s : MainState) : MainState × P2PInitResult :=
  let storageDir := env.userDataPath ++ "/orbitdb"
  match env.createLibp2p with
  | .error e => initCatch e s storageDir
  | .ok node =>
      let s1 : MainState := { s with libp2p := some node }
      match env.createHelia with
      | .error e => initCatch e s1 storageDir
      | .ok h =>
          ({ s1 with helia := some h },
           { success := true
             peerId := some node.peerId
             multiaddrs := some node.multiaddrs
             storageDir := some storageDir
             error := none })

/-- The `{ success, error? }` record returned by `createOrbitDBWithIdentity`. -/
structure BindResult where
  success : Bool
  error : Option String
deriving DecidableEq, Repr

/-- The serializable identity descriptor crossing the process boundary
(`serializeIdentity` output: id, publicKey, type; no sign/verify). -/
structure IdentityDescriptor where
  id : String
  publicKey : List Nat
  type : String
deriving DecidableEq, Repr

/-- `createOrbitDBWithIdentity` from `p2p-main.ts`: fails when Helia is
not initialized; is a no-op success when OrbitDB already exists; otherwise
creates OrbitDB (environment outcome), reclassifying first-run
`LEVEL_NOT_FOUND` as success. -/
def createOrbitDBWithIdentity (env : Except JsError OrbitDBNode)
    (identity : IdentityDescriptor) (s : MainState) : MainState × BindResult :=
  match s.helia with
  | none =>
      (s, { success := false
            error := some "Helia not initialized. Call initializeP2P first." })
  | some _ =>
      match s.orbitdb with
      | some _ => (s, { success := true, error := none })
      | none =>
          match env with
          | .ok o => ({ s with orbitdb := some o }, { success := true, error := none })
          | .error e =>
              if e.code = "LEVEL_NOT_FOUND" ∨ e.notFound then
                (s, { success := true, error := none })
              else
                (s, { success := false, error := some e.message })

/-- Outcomes of the external `stop()` calls made by `shutdownP2P`. -/
structure ShutdownEnv where
  orbitdbStop : Except JsError Unit
  heliaStop : Except JsError Unit
  libp2pStop : Except JsError Unit
deriving Repr

/-- Third statement of `shutdownP2P`'s try block:
`if (libp2p) { await libp2p.stop(); libp2p = null; }`.
Returns the state, the trace of completed stops, and the error caught by
the single catch block (if any). -/
def shutdownStepLibp2p (env : ShutdownEnv) (s : MainState) (trace : List String) :
    MainState × List String × Option JsError :=
  match s.libp2p with
  | none => (s, trace, none)
  | some _ =>
      match env.libp2pStop with
      | .error e => (s, trace, some e)
      | .ok _ => ({ s with libp2p := none }, trace ++ ["libp2p"], none)

/-- Second statement of `shutdownP2P`'s try block:
`if (helia) { await helia.stop(); helia = null; }`, then the libp2p step. -/
def shutdownStepHelia (env : ShutdownEnv) (s : MainState) (trace : List String) :
    MainState × List String × Option JsError :=
  match s.helia with
  | none => shutdownStepLibp2p env s trace
  | some _ =>
      match env.heliaStop with
      | .error e => (s, trace, some e)
      | .ok _ => shutdownStepLibp2p env { s with helia := none } (trace ++ ["helia"])

/-- `shutdownP2P` from `p2p-main.ts`: one try block stopping OrbitDB,
then Helia, then libp2p; one catch block that logs the error.  An error
thrown by any step lands in the catch, so the following steps are skipped;
the function itself never throws. -/
def shutdownP2P (env : ShutdownEnv) (s : MainState) :
    MainState × List String × Option JsError :=
  match s.orbitdb with
  | none => shutdownStepHelia env s []
  | some _ =>
      match env.orbitdbStop with
      | .error e => (s, [], some e)
      | .ok _ => shutdownStepHelia env { s with orbitdb := none } ["orbitdb"]

/-! ## OrbitDB IPC bridge (`src/electron/src/ipc-bridge.ts`) -/

/-- A document stored in a `documents`-type database; `_id` is the key
field OrbitDB's document store uses (`doc._id`). -/
structure Doc where
  _id : String
  fields : List (String × String)
deriving DecidableEq, Repr

/-- An open database handle as the bridge sees it: `db.address`,
`db.name`, `db.type`, and the document contents reachable through
`db.all()` / `db.get()` / `db.put()` / `db.del()`. -/
structure OpenDB where
  address : String
  name : String
  type : String
  docs : List Doc
deriving DecidableEq, Repr

/-- The bridge's module-level `databases` map (address → open handle),
as an association list in insertion order. -/
abbrev Databases := List (String × OpenDB)

/-- `databases.get(address)`. -/
def dbGet : Databases → String → Option OpenDB
  | [], _ => none
  | p :: rest, a => if p.1 = a then some p.2 else dbGet rest a

/-- `databases.set(address, db)`: replace in place if the key exists,
else append. -/
def dbSet : Databases → String → OpenDB → Databases
  | [], a, db => [(a, db)]
  | p :: rest, a, db =>
      if p.1 = a then (a, db) :: rest else p :: dbSet rest a db

/-- `databases.delete(address)`. -/
def dbDelete : Databases → String → Databases
  | [], _ => []
  | p :: rest, a => if p.1 = a then dbDelete rest a else p :: dbDelete rest a

/-- `db.put(doc)` on a document store: upsert keyed by `_id`. -/
def docPut : List Doc → Doc → List Doc
  | [], d => [d]
  | x :: rest, d =>
      if x._id = d._id then d :: rest else x :: docPut rest d

/-- Result of the `orbitdb:open` handler. -/
structure OpenResult where
  success : Bool
  address : Option String
  name : Option String
  type : Option String
  error : Option String
deriving DecidableEq, Repr

/-- The `orbitdb:open` handler: fails when OrbitDB is not bound, else
opens the database (environment outcome), registers it in the map keyed
by its address, and returns address/name/type. -/
def handleOpen (orbitdbReady : Bool) (openOutcome : Except JsError OpenDB)
    (dbs : Databases) : Databases × OpenResult :=
  if !orbitdbReady then
    (dbs, { success := false, address := none, name := none, type := none
            error := some "OrbitDB not initialized. Call createOrbitDB with identity first." })
  else
    match openOutcome with
    | .error e =>
        (dbs, { success := false, address := none, name := none, type := none
                error := some e.message })
    | .ok db =>
        (dbSet dbs db.address db,
         { success := true, address := some db.address, name := some db.name
           type := some db.type, error := none })

/-- A bare `{ success, error? }` IPC result. -/
structure SimpleResult where
  success : Bool
  error : Option String
deriving DecidableEq, Repr

/-- The `orbitdb:close` handler: unknown address is a structured
not-found failure; otherwise `db.close()` (environment outcome) and
removal from the map. -/
def handleClose (closeOutcome : Except JsError Unit) (dbs : Databases)
    (address : String) : Databases × SimpleResult :=
  match dbGet dbs address with
  | none => (dbs, { success := false, error := some ("Database not found: " ++ address) })
  | some _ =>
      match closeOutcome with
      | .error e => (dbs, { success := false, error := some e.message })
      | .ok _ => (dbDelete dbs address, { success := true, error := none })

/-- Result of the `orbitdb:query` handler. -/
structure QueryResult where
  success : Bool
  error : Option String
  documents : Option (List Doc)
deriving DecidableEq, Repr

/-- The `orbitdb:query` handler: not-found on unknown address, type
mismatch unless `db.type === 'documents'`, then `db.all()` filtered by
the eval'd filter function (evaluation outcome supplied by the
environment; an eval failure is the structured invalid-filter error). -/
def handleQuery (evalFilter : String → Except JsError (Doc → Bool))
    (dbs : Databases) (address : String) (filterFn : Option String) : QueryResult :=
  match dbGet dbs address with
  | none => { success := false, error := some ("Database not found: " ++ address)
              documents := none }
  | some db =>
      if db.type ≠ "documents" then
        { success := false, error := some "Query only works with documents type databases"
          documents := none }
      else
        match filterFn with
        | none => { success := true, error := none, documents := some db.docs }
        | some f =>
            match evalFilter f with
            | .error _ =>
                { success := false, error := some "Invalid filter function"
                  documents := none }
            | .ok flt =>
                { success := true, error := none, documents := some (db.docs.filter flt) }

/-- Result of the add/put/del handlers (`{ success, hash?, error? }`). -/
structure HashResult where
  success : Bool
  error : Option String
  hash : Option String
deriving DecidableEq, Repr

/-- The `orbitdb:add` handler: not-found, then type check, then
`db.put(doc)` (hash supplied by the environment). -/
def handleAdd (putOutcome : Except JsError String) (dbs : Databases)
    (address : String) (doc : Doc) : Databases × HashResult :=
  match dbGet dbs address with
  | none =>
      (dbs, { success := false, error := some ("Database not found: " ++ address)
              hash := none })
  | some db =>
      if db.type ≠ "documents" then
        (dbs, { success := false, error := some "Add only works with documents type databases"
                hash := none })
      else
        match putOutcome with
        | .error e => (dbs, { success := false, error := some e.message, hash := none })
        | .ok h =>
            (dbSet dbs address { db with docs := docPut db.docs doc },
             { success := true, error := none, hash := some h })

/-- The `orbitdb:put` handler: like add, with the additional
`if (!doc._id)` guard (empty `_id` is the falsy case). -/
def handlePut (putOutcome : Except JsError String) (dbs : Databases)
    (address : String) (doc : Doc) : Databases × HashResult :=
  match dbGet dbs address with
  | none =>
      (dbs, { success := false, error := some ("Database not found: " ++ address)
              hash := none })
  | some db =>
      if db.type ≠ "documents" then
        (dbs, { success := false, error := some "Put only works with documents type databases"
                hash := none })
      else if doc._id = "" then
        (dbs, { success := false, error := some "Document must have _id field for update"
                hash := none })
      else
        match putOutcome with
        | .error e => (dbs, { success := false, error := some e.message, hash := none })
        | .ok h =>
            (dbSet dbs address { db with docs := docPut db.docs doc },
             { success := true, error := none, hash := some h })

/-- The `orbitdb:del` handler: not-found, then type check, then
`db.del(key)`. -/
def handleDel (delOutcome : Except JsError String) (dbs : Databases)
    (address : String) (key : String) : Databases × HashResult :=
  match dbGet dbs address with
  | none =>
      (dbs, { success := false, error := some ("Database not found: " ++ address)
              hash := none })
  | some db =>
      if db.type ≠ "documents" then
        (dbs, { success := false, error := some "Del only works with documents type databases"
                hash := none })
      else
        match delOutcome with
        | .error e => (dbs, { success := false, error := some e.message, hash := none })
        | .ok h =>
            (dbSet dbs address { db with docs := db.docs.filter (fun x => x._id ≠ key) },
             { success := true, error := none, hash := some h })

/-- Result of the `orbitdb:get` handler. -/
structure GetResult where
  success : Bool
  error : Option String
  document : Option Doc
deriving DecidableEq, Repr

/-- The `orbitdb:get` handler: not-found, then type check, then
`db.get(id)` (the document with that `_id`, or nothing). -/
def handleGet (dbs : Databases) (address : String) (id : String) : GetResult :=
  match dbGet dbs address with
  | none =>
      { success := false, error := some ("Database not found: " ++ address)
        document := none }
  | some db =>
      if db.type ≠ "documents" then
        { success := false, error := some "Get only works with documents type databases"
          document := none }
      else
        { success := true, error := none, document := db.docs.find? (fun x => x._id = id) }

/-- Result of the `orbitdb:info` handler. -/
structure InfoResult where
  success : Bool
  error : Option String
  info : Option (String × String × String)
deriving DecidableEq, Repr

/-- The `orbitdb:info` handler. -/
def handleInfo (dbs : Databases) (address : String) : InfoResult :=
  match dbGet dbs address with
  | none =>
      { success := false, error := some ("Database not found: " ++ address), info := none }
  | some db =>
      { success := true, error := none, info := some (db.address, db.name, db.type) }

/-! ## Update fan-out (`ipc-bridge.ts` emit, `preload.ts` `onUpdate`,
renderer callback in `src/lib/p2p.js`) -/

/-- A database log entry as inspected by the update handler
(`entry.payload?.op`). -/
structure EntryPayload where
  op : Option String
  key : Option String
deriving DecidableEq, Repr

/-- An OrbitDB log entry; the bridge only looks at `payload`. -/
structure Entry where
  payload : Option EntryPayload
deriving DecidableEq, Repr

/-- The payload sent on the `orbitdb:update` channel:
`{ address, entry, operation: entry.payload?.op || 'unknown' }`. -/
structure UpdatePayload where
  address : String
  entry : Entry
  operation : String
deriving DecidableEq, Repr

/-- Building the update payload in the `db.events.on('update', ...)`
handler registered by `orbitdb:open`; `||` maps a missing or empty op to
`'unknown'`. -/
def emitUpdate (address : String) (e : Entry) : UpdatePayload :=
  { address := address
    entry := e
    operation :=
      match e.payload with
      | none => "unknown"
      | some p =>
          match p.op with
          | none => "unknown"
          | some s => if s = "" then "unknown" else s }

/-- A listener registered through `preload.ts`'s `onUpdate`: every such
listener sits on the single `orbitdb:update` channel.  `watched` records
which database address the consumer's callback cares about (the renderer
callback in `p2p.js` compares `data.address` against the address it
holds); the channel itself carries no such filter. -/
structure UpdateListener where
  id : Nat
  watched : String
deriving DecidableEq, Repr

/-- Delivery of one `orbitdb:update` emission: `webContents.send` followed
by `ipcRenderer.on` invokes every registered listener's callback with the
payload, regardless of which address the listener watches. -/
def deliverUpdate (listeners : List UpdateListener) (p : UpdatePayload) :
    List (UpdateListener × UpdatePayload) :=
  listeners.map (fun l => (l, p))

/-- The renderer-side callback from `src/lib/p2p.js` step 6: acts
(re-fetches the watched database) exactly when the payload's address
equals the address it watches. -/
def rendererActsOnUpdate (watched : String) (p : UpdatePayload) : Bool :=
  p.address = watched

/-! ## Identity layer (`src/src/lib/data-model.js`) -/

/-- The base58btc alphabet used by `multiformats/bases/base58`. -/
def base58Alphabet : List Char :=
  "123456789ABCDEFGHJKLMNPQRSTUVWXYZabcdefghijkmnopqrstuvwxyz".toList

/-- Big-endian base-58 digits of a natural number (empty for zero). -/
def natToBase58 (n : Nat) : List Char :=
  if h : n = 0 then []
  else natToBase58 (n / 58) ++ [base58Alphabet.getD (n % 58) '1']
termination_by n
decreasing_by exact Nat.div_lt_self (Nat.pos_of_ne_zero h) (by decide)

/-- The numeric value of a big-endian byte string. -/
def bytesToNat (bs : List Nat) : Nat :=
  bs.foldl (fun acc b => acc * 256 + b) 0

/-- Leading zero bytes, each encoded as `'1'` in base58btc. -/
def countLeadingZeroBytes : List Nat → Nat
  | [] => 0
  | b :: rest => if b = 0 then 1 + countLeadingZeroBytes rest else 0

/-- `base58btc.encode`: the multibase prefix `'z'`, one `'1'` per leading
zero byte, then the base-58 digits of the value. -/
def base58btcEncode (bs : List Nat) : String :=
  String.mk ('z' :: (List.replicate (countLeadingZeroBytes bs) '1' ++
    natToBase58 (bytesToNat bs)))

/-- `generateDID` from `data-model.js`:
`did:key:` followed by the base58btc multibase encoding of the public key
bytes. -/
def generateDID (publicKeyBytes : List Nat) : String :=
  "did:key:" ++ base58btcEncode publicKeyBytes

/-- A WebAuthn credential as stored by the renderer; the fields other
than `publicKey` play no role in identifier derivation. -/
structure WebAuthnCredential where
  id : String
  rawId : List Nat
  publicKey : List Nat
  userName : String
  createdAt : Nat
deriving DecidableEq, Repr

/-- The data part of the identity object built by `createOrbitDBIdentity`
(the attached sign/verify closures are modelled separately). -/
structure OrbitIdentity where
  id : String
  publicKey : List Nat
  type : String
deriving DecidableEq, Repr

/-- `createOrbitDBIdentity` from `data-model.js`: the identity's `id` is
`generateDID(credential.publicKey)`, its `publicKey` the credential's
key bytes, its `type` the literal `'webauthn'`. -/
def createOrbitDBIdentity (credential : WebAuthnCredential) : OrbitIdentity :=
  { id := generateDID credential.publicKey
    publicKey := credential.publicKey
    type := "webauthn" }

/-- An imported WebCrypto key handle; opaque. -/
structure CryptoKey where
  keyId : Nat
deriving DecidableEq, Repr

/-- The WebCrypto collaborator used by `verifyWithWebCrypto`: outcomes of
`crypto.subtle.importKey` on the public key bytes, `crypto.subtle.digest`
on the data, and `crypto.subtle.verify` on key, signature and digest.
Each call may throw (reject). -/
structure SubtleCrypto where
  importKey : List Nat → Except JsError CryptoKey
  digest : List Nat → Except JsError (List Nat)
  verify : CryptoKey → List Nat → List Nat → Except JsError Bool

/-- The try block of `verifyWithWebCrypto`: import the key, hash the
data, verify the signature against the digest. -/
def verifyAttempt (c : SubtleCrypto) (signature data publicKeyBytes : List Nat) :
    Except JsError Bool := do
  let key ← c.importKey publicKeyBytes
  let dataHash ← c.digest data
  c.verify key signature dataHash

/-- `verifyWithWebCrypto` from `data-model.js`: the whole body sits in a
try/catch whose catch returns `false`, so the function yields a plain
boolean for every input and every collaborator behaviour. -/
def verifyWithWebCrypto (c : SubtleCrypto) (signature data publicKeyBytes : List Nat) :
    Bool :=
  match verifyAttempt c signature data publicKeyBytes with
  | .ok isValid => isValid
  | .error _ => false

/-! ## Sign-Request Relay -/

/-- Status of a pending sign request. -/
inductive SignStatus
  | pending
  | resolved
  | failed
deriving DecidableEq, Repr

/-- Modelled from the spec: a **Pending Sign Request**
`{ requestId, payloadDigest, createdAt, status }` (§3).  The Relay itself
is absent from the source — `serializeIdentity` in `src/lib/p2p.js` drops
the sign/verify functions with a comment deferring the main-process
signing mechanism to future work — so the record follows the spec's
words. -/
structure PendingSignRequest where
  requestId : String
  payloadDigest : List Nat
  createdAt : Nat
  status : SignStatus
deriving DecidableEq, Repr

/-- Modelled from the spec: `resolveSignRequest(requestId, signature-or-error)`
(§4.3 step 4, §6).  The response is matched to the pending request by
`requestId`; a matching pending request becomes `resolved` (signature) or
`failed` (error) and the call is accepted; with no matching pending
request — unknown id, or late/duplicate response to an already-settled
request — the call is discarded and no request changes. -/
def resolveFun (requestId : String) (isSignature : Bool)
    (r : PendingSignRequest) : PendingSignRequest :=
  if r.requestId = requestId ∧ r.status = .pending then
    { r with status := if isSignature then .resolved else .failed }
  else r

/-- Modelled from the spec: the acceptance test and state update of
`resolveSignRequest` — accept exactly when some request with this id is
still pending, settling it; otherwise discard. -/
def resolveSignRequest (reqs : List PendingSignRequest) (requestId : String)
    (isSignature : Bool) : List PendingSignRequest × Bool :=
  if reqs.any (fun r => r.requestId = requestId ∧ r.status = .pending) then
    (reqs.map (resolveFun requestId isSignature), true)
  else
    (reqs, false)

/-! ## Helper lemmas -/

lemma dbGet_dbSet_self (dbs : Databases) (a : String) (db : OpenDB) :
    dbGet (dbSet dbs a db) a = some db := by
  induction dbs with
  | nil => simp [dbSet, dbGet]
  | cons p rest ih =>
      by_cases hp : p.1 = a
      · simp [dbSet, hp, dbGet]
      · simp [dbSet, hp, dbGet, ih]

lemma dbGet_dbDelete_self (dbs : Databases) (a : String) :
    dbGet (dbDelete dbs a) a = none := by
  induction dbs with
  | nil => simp [dbDelete, dbGet]
  | cons p rest ih =>
      by_cases hp : p.1 = a
      · simp [dbDelete, hp, ih]
      · simp [dbDelete, hp, dbGet, ih]

lemma resolveFun_requestId (rid : String) (b : Bool) (r : PendingSignRequest) :
    (resolveFun rid b r).requestId = r.requestId := by
  unfold resolveFun
  split <;> rfl

lemma resolveMap_filter (reqs : List PendingSignRequest) (rid : String) (b : Bool) :
    (reqs.map (resolveFun rid b)).filter (fun r => r.requestId ≠ rid) =
      reqs.filter (fun r => r.requestId ≠ rid) := by
  induction reqs with
  | nil => rfl
  | cons r rest ih =>
      simp only [ne_eq, decide_not] at ih ⊢
      by_cases hr : r.requestId = rid
      · have h1 : (resolveFun rid b r).requestId = rid := by
          rw [resolveFun_requestId]; exact hr
        simp [List.filter_cons, h1, hr, ih]
      · have h0 : resolveFun rid b r = r := by
          unfold resolveFun
          rw [if_neg]
          rintro ⟨h, -⟩
          exact hr h
        simp [List.filter_cons, h0, hr, ih]

lemma resolveMap_no_pending (reqs : List PendingSignRequest) (rid : String) (b : Bool) :
    (reqs.map (resolveFun rid b)).any
        (fun r => r.requestId = rid ∧ r.status = .pending) = false := by
  induction reqs with
  | nil => rfl
  | cons r rest ih =>
      simp only [List.map_cons, List.any_cons, ih, Bool.or_false]
      unfold resolveFun
      by_cases hc : r.requestId = rid ∧ r.status = .pending
      · rw [if_pos hc]
        cases b <;> simp
      · rw [if_neg hc]
        simpa using hc

/-! ## Claim theorems -/

/-- C4: missing-on-disk storage on first run is classified as success.
When `initializeP2P` has created the network node and the only fault is a
not-found error from the block/record store layer (`LEVEL_NOT_FOUND` code
or `notFound` flag), the call returns a success result carrying the
identifier, addresses and storage root. -/
theorem C4_first_run_not_found_is_success
    (env : InitEnv) (s : MainState) (node : Libp2pNode) (e : JsError)
    (hlib : env.createLibp2p = .ok node)
    (hhelia : env.createHelia = .error e)
    (hnf : e.code = "LEVEL_NOT_FOUND" ∨ e.notFound = true) :
    initializeP2P env s =
      ({ s with libp2p := some node },
       { success := true
         peerId := some node.peerId
         multiaddrs := some node.multiaddrs
         storageDir := some (env.userDataPath ++ "/orbitdb")
         error := none }) := by
  simp only [initializeP2P, hlib, hhelia, initCatch]
  rw [if_pos hnf]

/-- C4 witness: a concrete first run in which Helia's Level store throws
`LEVEL_NOT_FOUND` still yields success with the freshly created peer's
identifier. -/
theorem C4_first_run_not_found_is_success_witness :
    initializeP2P
      { createLibp2p := .ok { peerId := "12D3KooWFirst", multiaddrs := ["/ip4/127.0.0.1/tcp/4003"] }
        createHelia := .error { code := "LEVEL_NOT_FOUND", notFound := true, message := "not found" }
        userDataPath := "/home/user/.config/app" }
      { libp2p := none, helia := none, orbitdb := none } =
      ({ libp2p := some { peerId := "12D3KooWFirst", multiaddrs := ["/ip4/127.0.0.1/tcp/4003"] }
         helia := none, orbitdb := none },
       { success := true
         peerId := some "12D3KooWFirst"
         multiaddrs := some ["/ip4/127.0.0.1/tcp/4003"]
         storageDir := some "/home/user/.config/app/orbitdb"
         error := none }) :=
  C4_first_run_not_found_is_success _ _ _ _ rfl rfl (Or.inl rfl)

/-- C6: `createOrbitDBWithIdentity` (bindDatabaseEngine) returns the
storage-not-ready structured error when initialization has not completed
(no Helia), and when the database engine is already bound it is a no-op
success that leaves the existing engine instance in place. -/
theorem C6_bind_requires_init_and_is_idempotent
    (env : Except JsError OrbitDBNode) (idd : IdentityDescriptor) (s : MainState) :
    (s.helia = none →
      createOrbitDBWithIdentity env idd s =
        (s, { success := false
              error := some "Helia not initialized. Call initializeP2P first." })) ∧
    (∀ h o, s.helia = some h → s.orbitdb = some o →
      createOrbitDBWithIdentity env idd s = (s, { success := true, error := none })) := by
  constructor
  · intro hh
    simp [createOrbitDBWithIdentity, hh]
  · intro h o hh ho
    simp [createOrbitDBWithIdentity, hh, ho]

/-- C6 witness: binding before initialization fails with the structured
storage-not-ready error; a second bind after a successful one returns
success and keeps the same engine instance. -/
theorem C6_bind_requires_init_and_is_idempotent_witness :
    createOrbitDBWithIdentity (.ok { orbitId := 7 })
        { id := "did:key:zExample", publicKey := [1, 2], type := "webauthn" }
        { libp2p := none, helia := none, orbitdb := none } =
      ({ libp2p := none, helia := none, orbitdb := none },
       { success := false
         error := some "Helia not initialized. Call initializeP2P first." }) ∧
    createOrbitDBWithIdentity (.ok { orbitId := 7 })
        { id := "did:key:zExample", publicKey := [1, 2], type := "webauthn" }
        { libp2p := none, helia := some { heliaId := 1 }, orbitdb := some { orbitId := 3 } } =
      ({ libp2p := none, helia := some { heliaId := 1 }, orbitdb := some { orbitId := 3 } },
       { success := true, error := none }) :=
  ⟨(C6_bind_requires_init_and_is_idempotent _ _ _).1 rfl,
   (C6_bind_requires_init_and_is_idempotent _ _ _).2 { heliaId := 1 } { orbitId := 3 } rfl rfl⟩

/-- C7: `verifyWithWebCrypto` never propagates an internal failure: when
any of the WebCrypto calls (key import, hashing, signature verification)
throws, the function returns `false`; when they all succeed it returns
the verification boolean.  Its return type is a plain boolean for every
collaborator behaviour. -/
theorem C7_verify_never_throws (c : SubtleCrypto) (s d k : List Nat) :
    (∀ e, c.importKey k = .error e → verifyWithWebCrypto c s d k = false) ∧
    (∀ key e, c.importKey k = .ok key → c.digest d = .error e →
      verifyWithWebCrypto c s d k = false) ∧
    (∀ key dh e, c.importKey k = .ok key → c.digest d = .ok dh →
      c.verify key s dh = .error e → verifyWithWebCrypto c s d k = false) ∧
    (∀ key dh b, c.importKey k = .ok key → c.digest d = .ok dh →
      c.verify key s dh = .ok b → verifyWithWebCrypto c s d k = b) := by
  refine ⟨?_, ?_, ?_, ?_⟩
  · intro e he
    unfold verifyWithWebCrypto verifyAttempt
    rw [he]
    rfl
  · intro key e h1 h2
    unfold verifyWithWebCrypto verifyAttempt
    rw [h1]
    show (match (c.digest d >>= fun dataHash => c.verify key s dataHash) with
      | .ok isValid => isValid
      | .error _ => false) = false
    rw [h2]
    rfl
  · intro key dh e h1 h2 h3
    unfold verifyWithWebCrypto verifyAttempt
    rw [h1]
    show (match (c.digest d >>= fun dataHash => c.verify key s dataHash) with
      | .ok isValid => isValid
      | .error _ => false) = false
    rw [h2]
    show (match c.verify key s dh with
      | .ok isValid => isValid
      | .error _ => false) = false
    rw [h3]
  · intro key dh b h1 h2 h3
    unfold verifyWithWebCrypto verifyAttempt
    rw [h1]
    show (match (c.digest d >>= fun dataHash => c.verify key s dataHash) with
      | .ok isValid => isValid
      | .error _ => false) = b
    rw [h2]
    show (match c.verify key s dh with
      | .ok isValid => isValid
      | .error _ => false) = b
    rw [h3]

/-- C7 witness: a malformed public key (key import rejects) makes
verification return `false` rather than fail. -/
theorem C7_verify_never_throws_witness :
    verifyWithWebCrypto
      { importKey := fun _ => .error { code := "DataError", notFound := false, message := "bad key" }
        digest := fun dd => .ok dd
        verify := fun _ _ _ => .ok true }
      [9, 9] [1, 2, 3] [0] = false :=
  (C7_verify_never_throws _ _ _ _).1
    { code := "DataError", notFound := false, message := "bad key" } rfl

/-- C8: the self-certifying identifier is a deterministic function of the
public key bytes: `createOrbitDBIdentity` derives the id as
`generateDID(publicKey)`, so two credential-creation runs yielding the
same public key bytes (whatever their other fields) derive the same
identifier. -/
theorem C8_did_deterministic_from_public_key (c1 c2 : WebAuthnCredential)
    (h : c1.publicKey = c2.publicKey) :
    (createOrbitDBIdentity c1).id = generateDID c1.publicKey ∧
    (createOrbitDBIdentity c1).id = (createOrbitDBIdentity c2).id := by
  constructor
  · rfl
  · simp [createOrbitDBIdentity, h]

/-- C8 witness: two runs with different credential ids, raw ids, names
and timestamps but identical public key bytes derive the same DID. -/
theorem C8_did_deterministic_from_public_key_witness :
    (createOrbitDBIdentity
      { id := "credA", rawId := [1], publicKey := [0, 7, 255], userName := "Alice", createdAt := 10 }).id =
    (createOrbitDBIdentity
      { id := "credB", rawId := [2, 3], publicKey := [0, 7, 255], userName := "Bob", createdAt := 99 }).id :=
  (C8_did_deterministic_from_public_key _ _ rfl).2

/-- C5: for every database, opening it, closing it (successfully), and
then querying the closed address yields the structured not-found failure;
and every subsequent handler referencing the closed address — query, get,
add, put, del, info — fails with the same structured not-found error and
leaves the open-handle map unchanged. -/
theorem C5_close_then_reference_is_not_found
    (dbs : Databases) (db : OpenDB)
    (ev : String → Except JsError (Doc → Bool))
    (pe1 pe2 de : Except JsError String)
    (f : Option String) (i k : String) (d1 d2 : Doc) :
    (handleOpen true (.ok db) dbs).2.success = true ∧
    (handleClose (.ok ()) (handleOpen true (.ok db) dbs).1 db.address).2 =
      { success := true, error := none } ∧
    handleQuery ev
        (handleClose (.ok ()) (handleOpen true (.ok db) dbs).1 db.address).1
        db.address f =
      { success := false, error := some ("Database not found: " ++ db.address)
        documents := none } ∧
    handleGet
        (handleClose (.ok ()) (handleOpen true (.ok db) dbs).1 db.address).1
        db.address i =
      { success := false, error := some ("Database not found: " ++ db.address)
        document := none } ∧
    handleAdd pe1
        (handleClose (.ok ()) (handleOpen true (.ok db) dbs).1 db.address).1
        db.address d1 =
      ((handleClose (.ok ()) (handleOpen true (.ok db) dbs).1 db.address).1,
       { success := false, error := some ("Database not found: " ++ db.address)
         hash := none }) ∧
    handlePut pe2
        (handleClose (.ok ()) (handleOpen true (.ok db) dbs).1 db.address).1
        db.address d2 =
      ((handleClose (.ok ()) (handleOpen true (.ok db) dbs).1 db.address).1,
       { success := false, error := some ("Database not found: " ++ db.address)
         hash := none }) ∧
    handleDel de
        (handleClose (.ok ()) (handleOpen true (.ok db) dbs).1 db.address).1
        db.address k =
      ((handleClose (.ok ()) (handleOpen true (.ok db) dbs).1 db.address).1,
       { success := false, error := some ("Database not found: " ++ db.address)
         hash := none }) ∧
    handleInfo
        (handleClose (.ok ()) (handleOpen true (.ok db) dbs).1 db.address).1
        db.address =
      { success := false, error := some ("Database not found: " ++ db.address)
        info := none } := by
  have hopen : handleOpen true (.ok db) dbs =
      (dbSet dbs db.address db,
       { success := true, address := some db.address, name := some db.name
         type := some db.type, error := none }) := by
    simp [handleOpen]
  have hget1 : dbGet (dbSet dbs db.address db) db.address = some db :=
    dbGet_dbSet_self dbs db.address db
  have hclose : handleClose (.ok ()) (handleOpen true (.ok db) dbs).1 db.address =
      (dbDelete (dbSet dbs db.address db) db.address,
       { success := true, error := none }) := by
    rw [hopen]
    simp [handleClose, hget1]
  have hget2 : dbGet (handleClose (.ok ()) (handleOpen true (.ok db) dbs).1 db.address).1
      db.address = none := by
    rw [hclose]
    exact dbGet_dbDelete_self _ _
  refine ⟨by rw [hopen], by rw [hclose], ?_, ?_, ?_, ?_, ?_, ?_⟩ <;>
    simp [handleQuery, handleGet, handleAdd, handlePut, handleDel, handleInfo, hget2]

/-- C10: invoking any of the document handlers — query, get, add, put,
del — on an open database whose type is not `documents` returns the
structured type-mismatch failure and leaves the open-handle map (and
hence every database's contents) unchanged. -/
theorem C10_type_mismatch_is_structured_failure
    (dbs : Databases) (a : String) (db : OpenDB)
    (ev : String → Except JsError (Doc → Bool))
    (pe1 pe2 de : Except JsError String)
    (f : Option String) (i k : String) (d1 d2 : Doc)
    (hmem : dbGet dbs a = some db) (hty : db.type ≠ "documents") :
    handleQuery ev dbs a f =
      { success := false, error := some "Query only works with documents type databases"
        documents := none } ∧
    handleGet dbs a i =
      { success := false, error := some "Get only works with documents type databases"
        document := none } ∧
    handleAdd pe1 dbs a d1 =
      (dbs, { success := false, error := some "Add only works with documents type databases"
              hash := none }) ∧
    handlePut pe2 dbs a d2 =
      (dbs, { success := false, error := some "Put only works with documents type databases"
              hash := none }) ∧
    handleDel de dbs a k =
      (dbs, { success := false, error := some "Del only works with documents type databases"
              hash := none }) := by
  refine ⟨?_, ?_, ?_, ?_, ?_⟩ <;>
    simp [handleQuery, handleGet, handleAdd, handlePut, handleDel, hmem, hty]

/-- C10 witness: the five document handlers on an open `eventlog`
database all return the structured type-mismatch failure and leave the
handle map unchanged. -/
theorem C10_type_mismatch_is_structured_failure_witness :
    handleAdd (.ok "hash1")
        [("addrLog", { address := "addrLog", name := "attention", type := "eventlog", docs := [] })]
        "addrLog" { _id := "x", fields := [] } =
      ([("addrLog", { address := "addrLog", name := "attention", type := "eventlog", docs := [] })],
       { success := false, error := some "Add only works with documents type databases"
         hash := none }) ∧
    handleQuery (fun _ => .ok (fun _ => true))
        [("addrLog", { address := "addrLog", name := "attention", type := "eventlog", docs := [] })]
        "addrLog" none =
      { success := false, error := some "Query only works with documents type databases"
        documents := none } :=
  ⟨(C10_type_mismatch_is_structured_failure
      [("addrLog", { address := "addrLog", name := "attention", type := "eventlog", docs := [] })]
      "addrLog" { address := "addrLog", name := "attention", type := "eventlog", docs := [] }
      (fun _ => .ok (fun _ => true))
      (.ok "hash1") (.ok "h2") (.ok "h3") none "i" "k"
      { _id := "x", fields := [] } { _id := "y", fields := [] }
      rfl (by decide)).2.2.1,
   (C10_type_mismatch_is_structured_failure
      [("addrLog", { address := "addrLog", name := "attention", type := "eventlog", docs := [] })]
      "addrLog" { address := "addrLog", name := "attention", type := "eventlog", docs := [] }
      (fun _ => .ok (fun _ => true))
      (.ok "hash1") (.ok "h2") (.ok "h3") none "i" "k"
      { _id := "x", fields := [] } { _id := "y", fields := [] }
      rfl (by decide)).1⟩

/-- C9: a `resolveSignRequest` call whose `requestId` matches no pending
request is discarded with state unchanged; requests with other ids are
never modified by any call; and at most one resolution is accepted per
request — an immediate second (late or duplicate) response for the same
`requestId` is discarded without changing state. -/
theorem C9_resolve_unknown_discarded_exactly_once
    (reqs : List PendingSignRequest) (rid : String) (b b' : Bool) :
    ((∀ r, r ∈ reqs → ¬(r.requestId = rid ∧ r.status = SignStatus.pending)) →
      resolveSignRequest reqs rid b = (reqs, false)) ∧
    ((resolveSignRequest reqs rid b).1.filter (fun r => r.requestId ≠ rid) =
      reqs.filter (fun r => r.requestId ≠ rid)) ∧
    (resolveSignRequest (resolveSignRequest reqs rid b).1 rid b' =
      ((resolveSignRequest reqs rid b).1, false)) := by
  refine ⟨?_, ?_, ?_⟩
  · intro h
    unfold resolveSignRequest
    rw [if_neg]
    intro hcon
    rw [List.any_eq_true] at hcon
    obtain ⟨r, hr, hp⟩ := hcon
    exact h r hr (by simpa using hp)
  · unfold resolveSignRequest
    by_cases hc : reqs.any (fun r => r.requestId = rid ∧ r.status = .pending) = true
    · rw [if_pos hc]
      exact resolveMap_filter reqs rid b
    · rw [if_neg hc]
  · by_cases hc : reqs.any (fun r => r.requestId = rid ∧ r.status = .pending) = true
    · have h1 : resolveSignRequest reqs rid b = (reqs.map (resolveFun rid b), true) := by
        unfold resolveSignRequest
        rw [if_pos hc]
      rw [h1]
      unfold resolveSignRequest
      rw [if_neg]
      rw [resolveMap_no_pending reqs rid b]
      simp
    · have h1 : resolveSignRequest reqs rid b = (reqs, false) := by
        unfold resolveSignRequest
        rw [if_neg hc]
      rw [h1]
      unfold resolveSignRequest
      rw [if_neg hc]

/-- C9 witness: with two pending requests, an unknown-id response is
discarded leaving both untouched, and after one accepted resolution a
duplicate response for the same id is discarded. -/
theorem C9_resolve_unknown_discarded_exactly_once_witness :
    resolveSignRequest
        [{ requestId := "r1", payloadDigest := [1], createdAt := 0, status := .pending },
         { requestId := "r2", payloadDigest := [2], createdAt := 1, status := .pending }]
        "unknown" true =
      ([{ requestId := "r1", payloadDigest := [1], createdAt := 0, status := .pending },
        { requestId := "r2", payloadDigest := [2], createdAt := 1, status := .pending }],
       false) ∧
    resolveSignRequest
        (resolveSignRequest
          [{ requestId := "r1", payloadDigest := [1], createdAt := 0, status := .pending },
           { requestId := "r2", payloadDigest := [2], createdAt := 1, status := .pending }]
          "r1" true).1
        "r1" true =
      ((resolveSignRequest
          [{ requestId := "r1", payloadDigest := [1], createdAt := 0, status := .pending },
           { requestId := "r2", payloadDigest := [2], createdAt := 1, status := .pending }]
          "r1" true).1,
       false) :=
  ⟨(C9_resolve_unknown_discarded_exactly_once
      [{ requestId := "r1", payloadDigest := [1], createdAt := 0, status := .pending },
       { requestId := "r2", payloadDigest := [2], createdAt := 1, status := .pending }]
      "unknown" true true).1 (by decide),
   (C9_resolve_unknown_discarded_exactly_once
      [{ requestId := "r1", payloadDigest := [1], createdAt := 0, status := .pending },
       { requestId := "r2", payloadDigest := [2], createdAt := 1, status := .pending }]
      "r1" true true).2.2⟩

/-- Concrete first-run environment for exercising `initializeP2P`:
libp2p generates a fresh peer identity on each call, so a re-run yields a
different node. -/
def c1NodeA : Libp2pNode :=
  { peerId := "12D3KooWPeerA", multiaddrs := ["/ip4/127.0.0.1/tcp/4003"] }

/-- The node created by the second `createLibp2p()` call. -/
def c1NodeB : Libp2pNode :=
  { peerId := "12D3KooWPeerB", multiaddrs := ["/ip4/127.0.0.1/tcp/4005"] }

/-- Outcomes of the first `initializeP2P` run (all succeed). -/
def c1EnvA : InitEnv :=
  { createLibp2p := .ok c1NodeA, createHelia := .ok { heliaId := 1 }
    userDataPath := "/userData" }

/-- Outcomes of the second `initializeP2P` run (all succeed; fresh
instances). -/
def c1EnvB : InitEnv :=
  { createLibp2p := .ok c1NodeB, createHelia := .ok { heliaId := 2 }
    userDataPath := "/userData" }

/-- C1 counterexample: after a successful initialization, calling
`initializeP2P` again does not return the existing state — it creates and
installs a fresh network node, and the second caller receives a different
identifier than the first.  This refutes idempotent re-initialization and
the at-most-one-node-per-process-lifetime invariant as stated. -/
theorem C1_reinitialize_not_idempotent_cex :
    (initializeP2P c1EnvA { libp2p := none, helia := none, orbitdb := none }).2.success = true ∧
    (initializeP2P c1EnvB
        (initializeP2P c1EnvA { libp2p := none, helia := none, orbitdb := none }).1).2.peerId ≠
      (initializeP2P c1EnvA { libp2p := none, helia := none, orbitdb := none }).2.peerId ∧
    (initializeP2P c1EnvB
        (initializeP2P c1EnvA { libp2p := none, helia := none, orbitdb := none }).1).1.libp2p ≠
      (initializeP2P c1EnvA { libp2p := none, helia := none, orbitdb := none }).1.libp2p := by
  refine ⟨rfl, ?_, ?_⟩ <;> decide

/-- C1 amended: `initializeP2P` has no re-entry guard.  From any state —
including one in which initialization already completed — a call whose
external creations succeed runs the full sequence again, overwrites the
singleton node and storage references with the fresh instances (so the
module variables still reference at most one instance at a time, but the
old instances are discarded, not returned), and returns the new node's
identifier, addresses and the storage root. -/
theorem C1_reinitialize_replaces_state
    (env : InitEnv) (s : MainState) (node : Libp2pNode) (h : HeliaNode)
    (hlib : env.createLibp2p = .ok node) (hhel : env.createHelia = .ok h) :
    initializeP2P env s =
      ({ libp2p := some node, helia := some h, orbitdb := s.orbitdb },
       { success := true
         peerId := some node.peerId
         multiaddrs := some node.multiaddrs
         storageDir := some (env.userDataPath ++ "/orbitdb")
         error := none }) := by
  simp [initializeP2P, hlib, hhel]

/-- C1 amended witness: re-running initialization from an
already-initialized state installs the new node and returns its data. -/
theorem C1_reinitialize_replaces_state_witness :
    initializeP2P c1EnvB
        { libp2p := some c1NodeA, helia := some { heliaId := 1 }, orbitdb := none } =
      ({ libp2p := some c1NodeB, helia := some { heliaId := 2 }, orbitdb := none },
       { success := true
         peerId := some "12D3KooWPeerB"
         multiaddrs := some ["/ip4/127.0.0.1/tcp/4005"]
         storageDir := some "/userData/orbitdb"
         error := none }) :=
  C1_reinitialize_replaces_state c1EnvB
    { libp2p := some c1NodeA, helia := some { heliaId := 1 }, orbitdb := none }
    c1NodeB { heliaId := 2 } rfl rfl

/-- A live supervisor state: engine, storage and network node all
present. -/
def c2StateAll : MainState :=
  { libp2p := some { peerId := "12D3KooWPeer", multiaddrs := [] }
    helia := some { heliaId := 1 }
    orbitdb := some { orbitId := 2 } }

/-- A shutdown run in which the database engine's `stop()` throws and the
later steps would succeed. -/
def c2EnvEngineFails : ShutdownEnv :=
  { orbitdbStop := .error { code := "ECONNRESET", notFound := false, message := "stop failed" }
    heliaStop := .ok ()
    libp2pStop := .ok () }

/-- C2 counterexample: with engine, storage and network all live, a
failure in the first teardown step (the database engine) leaves the state
entirely unchanged — the storage and network steps never ran (empty
trace), even though the error was only logged.  This refutes the claim
that a failing step still lets the remaining steps run. -/
theorem C2_shutdown_abort_cex :
    (shutdownP2P c2EnvEngineFails c2StateAll).1 = c2StateAll ∧
    (shutdownP2P c2EnvEngineFails c2StateAll).2.1 = [] ∧
    (shutdownP2P c2EnvEngineFails c2StateAll).2.2 =
      some { code := "ECONNRESET", notFound := false, message := "stop failed" } := by
  refine ⟨?_, ?_, ?_⟩ <;> decide

/-- C2 amended: `shutdownP2P` tears down the database engine first, then
the storage layer, then the network node (the completed-steps trace is
always a subsequence of that order); a failing step's error is caught and
logged so the call itself never throws, and when no step fails all three
members are torn down — but a failure in one step aborts the remaining
steps: on any logged error the network node is left untouched, and an
engine-stop failure leaves the whole state unchanged with nothing torn
down. -/
theorem C2_shutdown_ordered_but_aborts_on_error (env : ShutdownEnv) (s : MainState) :
    List.Sublist (shutdownP2P env s).2.1 ["orbitdb", "helia", "libp2p"] ∧
    ((shutdownP2P env s).2.2 = none →
      (shutdownP2P env s).1 = { libp2p := none, helia := none, orbitdb := none }) ∧
    (∀ e, (shutdownP2P env s).2.2 = some e → (shutdownP2P env s).1.libp2p = s.libp2p) ∧
    (∀ e o, env.orbitdbStop = .error e → s.orbitdb = some o →
      shutdownP2P env s = (s, [], some e)) := by
  obtain ⟨os, hs, ls⟩ := env
  obtain ⟨l, h, o⟩ := s
  cases o <;> cases h <;> cases l <;> cases os <;> cases hs <;> cases ls <;>
    simp [shutdownP2P, shutdownStepHelia, shutdownStepLibp2p]

/-- C2 amended witness: a fully successful shutdown from the all-live
state stops engine, storage, node in order; and the failing-engine run is
the aborted case. -/
theorem C2_shutdown_ordered_but_aborts_on_error_witness :
    ((shutdownP2P { orbitdbStop := .ok (), heliaStop := .ok (), libp2pStop := .ok () }
        c2StateAll).2.2 = none →
      (shutdownP2P { orbitdbStop := .ok (), heliaStop := .ok (), libp2pStop := .ok () }
        c2StateAll).1 = { libp2p := none, helia := none, orbitdb := none }) ∧
    shutdownP2P c2EnvEngineFails c2StateAll =
      (c2StateAll, [],
       some { code := "ECONNRESET", notFound := false, message := "stop failed" }) :=
  ⟨(C2_shutdown_ordered_but_aborts_on_error _ c2StateAll).2.1,
   (C2_shutdown_ordered_but_aborts_on_error c2EnvEngineFails c2StateAll).2.2.2
     { code := "ECONNRESET", notFound := false, message := "stop failed" }
     { orbitId := 2 } rfl rfl⟩

/-- A concrete update entry for the fan-out scenarios. -/
def c3Entry : Entry := { payload := some { op := some "PUT", key := some "doc1" } }

/-- A listener registered through `onUpdate` whose consumer only watches
address `addrB`. -/
def c3ListenerB : UpdateListener := { id := 0, watched := "addrB" }

/-- C3 counterexample: an update event emitted for address `addrA` is
delivered to the registered listener that only watches `addrB` — the
single `orbitdb:update` channel has no per-address subscription filter,
so the event reaches every listener's callback.  This refutes the claim
that such an event is never delivered to a subscriber only watching
another address. -/
theorem C3_update_delivered_to_other_watcher_cex :
    deliverUpdate [c3ListenerB] (emitUpdate "addrA" c3Entry) =
      [(c3ListenerB, emitUpdate "addrA" c3Entry)] ∧
    c3ListenerB.watched ≠ (emitUpdate "addrA" c3Entry).address := by
  refine ⟨rfl, ?_⟩
  decide

/-- C3 amended: every emitted update event is delivered to every
registered `onUpdate` listener regardless of the address it watches; the
event carries the emitting database's address, and a consumer such as the
renderer callback acts on the event exactly when that address equals the
one it watches. -/
theorem C3_update_broadcast_to_all_listeners
    (listeners : List UpdateListener) (l : UpdateListener) (p : UpdatePayload)
    (hl : l ∈ listeners) :
    (l, p) ∈ deliverUpdate listeners p ∧
    (rendererActsOnUpdate l.watched p = true ↔ p.address = l.watched) := by
  constructor
  · exact List.mem_map_of_mem _ hl
  · simp [rendererActsOnUpdate]

/-- C3 amended witness: the `addrB` watcher receives the `addrA` event,
and its callback ignores it while acting on an `addrB` event. -/
theorem C3_update_broadcast_to_all_listeners_witness :
    (c3ListenerB, emitUpdate "addrA" c3Entry) ∈
      deliverUpdate [c3ListenerB] (emitUpdate "addrA" c3Entry) ∧
    rendererActsOnUpdate c3ListenerB.watched (emitUpdate "addrA" c3Entry) = false ∧
    rendererActsOnUpdate c3ListenerB.watched (emitUpdate "addrB" c3Entry) = true :=
  ⟨(C3_update_broadcast_to_all_listeners [c3ListenerB] c3ListenerB
      (emitUpdate "addrA" c3Entry) (List.mem_singleton.mpr rfl)).1,
   by decide,
   (C3_update_broadcast_to_all_listeners [c3ListenerB] c3ListenerB
      (emitUpdate "addrB" c3Entry) (List.mem_singleton.mpr rfl)).2.mpr rfl⟩
